import Mathlib

/-!
Shallow embedding of the aurasense-backend onboarding dialogue engine.

Sources embedded (paths relative to the repository root):
  * `src/agents/onboaring_agent/tools.py`   — extraction filtering,
    `get_user_onboarding_state`, `generate_contextual_onboarding_question`,
    `save_user_to_graph_db`.
  * `src/agents/onboaring_agent/nodes.py`   — `transcription_node`,
    `information_extraction_node`, `onboarding_complete_node`,
    `generate_response_node`, `end_interaction_node`, routing predicates.
  * `src/agents/onboaring_agent/graph.py`   — the turn graph and
    `continue_onboarding_conversation`.
  * `src/app/api/routes/onboarding.py`      — `process_onboarding_input`,
    `_calculate_progress`, `_save_onboarding_to_user`, the fresh-session seed.

Python dynamic values are embedded as the inductive `Value`; Python dicts as
association lists where a later entry for a key shadows an earlier one, so
that appending an entry is exactly `dict.__setitem__` / `{**a, **b}` update
semantics pointwise, and the number of distinct keys plays the role of
`len(dict)`.  External collaborators (speech-to-text, the LLM, the graph
database connection, `user.save()`) are modelled by an `Oracle` of outcomes
supplied to the turn function; the graph database contents are threaded
through each turn as an association list keyed by email.
-/

/-- A Python runtime value as the onboarding code manipulates them:
`None`, strings, ints, bools, and lists of strings (the only list values the
profile schema produces). -/
inductive Value : Type where
  | none : Value
  | str (s : String) : Value
  | int (n : Int) : Value
  | bool (b : Bool) : Value
  | list (xs : List String) : Value
deriving DecidableEq, Repr

/-- Python truthiness of a `Value` (`bool(v)`). -/
def truthy : Value → Bool
  | Value.none => false
  | Value.str s => s ≠ ""
  | Value.int n => n ≠ 0
  | Value.bool b => b
  | Value.list xs => ¬ xs.isEmpty

/-- Python `str(v)` as far as the onboarding code interpolates values into
f-strings (names and greetings; list rendering is approximate, the code only
ever interpolates strings here). -/
def pyStr : Value → String
  | Value.none => "None"
  | Value.str s => s
  | Value.int n => toString n
  | Value.bool true => "True"
  | Value.bool false => "False"
  | Value.list xs => toString xs

/-- A Python dict (string keys) as an association list: a later entry for a
key shadows an earlier one. -/
abbrev Dict : Type := List (String × Value)

/-- Association-list lookup where the last entry for a key wins (Python's
single stored value for the key). `Option.none` means the key is absent. -/
def alGet {α : Type} : List (String × α) → String → Option α
  | [], _ => Option.none
  | p :: rest, k =>
    match alGet rest k with
    | some v => some v
    | Option.none => if p.1 = k then some p.2 else Option.none

/-- Dict lookup (`d[k]` / key-presence test). -/
def dget (d : Dict) (k : String) : Option Value := alGet d k

/-- Python `d.get(k)`: absent keys give `None`. -/
def pyGet (d : Dict) (k : String) : Value := (dget d k).getD Value.none

/-- Python `d.get(k, default)`. -/
def dgetD (d : Dict) (k : String) (dflt : Value) : Value := (dget d k).getD dflt

/-- Python `len(d)` for a dict: the number of distinct keys. -/
def dictLen (d : Dict) : Nat := (d.map Prod.fst).toFinset.card

/-- The graph database contents relevant to onboarding: user records keyed by
email.  A user record is itself a `Dict` of attribute name to value. -/
abbrev Db : Type := List (String × Dict)

/-- Database lookup by email, last write wins. -/
def dbGet (db : Db) (email : String) : Option Dict := alGet db email

/-- `User.nodes.filter(email=value).first()`: only a string value can match a
record. -/
def dbFindV (db : Db) (v : Value) : Option Dict :=
  match v with
  | Value.str s => dbGet db s
  | _ => Option.none

/-- Write a record back under its email (`user.save()`): appending shadows the
older record. -/
def dbSet (db : Db) (email : String) (u : Dict) : Db := db ++ [(email, u)]

/-- `nodes.py` line 5: the fallback field list used when the database read
fails (`ONBOARDING_REQUIRED_FIELDS`) — note it has nine entries and no
`phone`. -/
def ONBOARDING_REQUIRED_FIELDS : List String :=
  ["age", "dietary_restrictions", "cuisine_preferences", "price_range",
   "is_tourist", "cultural_background", "food_allergies", "spice_tolerance",
   "preferred_languages"]

/-- `tools.py` line 533 (and `onboarding.py` line 328): the ten catalog fields
used by the database-backed missing-field computation and by
`_calculate_progress`. -/
def onboarding_fields : List String :=
  ["age", "dietary_restrictions", "cuisine_preferences", "price_range",
   "is_tourist", "cultural_background", "food_allergies", "spice_tolerance",
   "preferred_languages", "phone"]

/-- `tools.py` lines 297-299, the extraction post-filter condition:
`value is not None and value != [] and value != ""`. -/
def presentExtract (v : Value) : Bool :=
  v ≠ Value.none && v ≠ Value.list [] && v ≠ Value.str ""

/-- `tools.py` line 562, the database-backed missing test:
`value is None or (isinstance(value, list) and len(value) == 0)`. -/
def isMissingDb (v : Value) : Bool :=
  v = Value.none || v = Value.list []

/-- `extract_user_information` (`tools.py` lines 233-305): on any failure of
the completion call the except-branch returns `{}`; otherwise the raw
structured output (`raw`, the model dump) is filtered by `presentExtract`. -/
def extract_user_information (fails : Bool) (raw : Dict) : Dict :=
  if fails then [] else raw.filter (fun p => presentExtract p.2)

/-- The `f"{first_name}, "` greeting of
`generate_contextual_onboarding_question` (`tools.py` lines 588-589):
`current_state.get("first_name", "")`, used only when truthy. -/
def nameGreeting (current_state : Dict) : String :=
  let fn := dgetD current_state "first_name" (Value.str "")
  if truthy fn then pyStr fn ++ ", " else ""

/-- The `question_prompts` lookup table of
`generate_contextual_onboarding_question` (`tools.py` lines 592-612), with the
greeting `g` interpolated as in the source f-strings. -/
def question_prompts (g : String) : List (String × String) :=
  [("age", "Hi " ++ g ++ "to provide you with the most suitable recommendations, could you tell me your age?"),
   ("dietary_restrictions", g ++ "I'd love to know about your dietary preferences! Are you vegetarian, vegan, gluten-free, or following any specific eating plan?"),
   ("cuisine_preferences", g ++ "what types of cuisine make your taste buds happy? Are you into Italian, Asian, Mexican, Mediterranean, or something else?"),
   ("price_range", g ++ "what's your preferred price range when dining out? Are you looking for budget-friendly spots, mid-range options, premium experiences, or luxury dining?"),
   ("is_tourist", g ++ "are you visiting this area as a tourist, or do you live here locally? This helps me recommend the best experiences for you."),
   ("cultural_background", g ++ "what's your cultural background? This helps me recommend authentic experiences and understand any cultural food preferences you might have."),
   ("food_allergies", g ++ "for your safety, do you have any food allergies I absolutely need to know about? Things like nuts, shellfish, dairy, or eggs?"),
   ("spice_tolerance", g ++ "how do you handle spicy food? Are you a mild person, or do you love the heat? Rate yourself from 1 (no spice) to 5 (bring the fire)!"),
   ("preferred_languages", g ++ "what languages do you prefer to communicate in? This helps me find restaurants with staff who speak your language."),
   ("phone", g ++ "what's your phone number? This helps us send you important updates and reservation confirmations.")]

/-- `base_question` of `generate_contextual_onboarding_question`
(`tools.py` line 615): the table entry, with the generic
`could you tell me about your ...` default. -/
def base_question (missing_field : String) (current_state : Dict) : String :=
  let g := nameGreeting current_state
  match (question_prompts g).lookup missing_field with
  | some q => q
  | Option.none =>
      g ++ "could you tell me about your " ++ missing_field.replace "_" " " ++ "?"

/-- `generate_contextual_onboarding_question` (`tools.py` lines 577-645):
below four known context entries the base question is returned directly; with
more context the restyling LLM call is attempted (`restyleRes`, `Option.none`
models the except-branch) and its answer stripped, the base question being
the fallback. -/
def generate_contextual_onboarding_question (restyleRes : Option String)
    (missing_field : String) (current_state : Dict) : String :=
  let base := base_question missing_field current_state
  if dictLen current_state > 3 then
    match restyleRes with
    | some r => r.trim
    | Option.none => base
  else base

/-- The field names the neomodel `User` class actually declares
(`models/user.py` lines 88-129): properties and relationships.  `hasattr`
and plain attribute access succeed exactly on these; `cultural_background`,
`food_allergies`, `spice_tolerance`, `preferred_languages` and
`is_onboarded` are NOT among them, so a plain `user.<field>` read of any of
those raises `AttributeError`. -/
def userDeclaredFields : List String :=
  ["uid", "email", "username", "password_hash", "first_name", "last_name",
   "phone", "age", "dietary_restrictions", "cuisine_preferences",
   "price_range", "created_at", "last_active", "is_tourist",
   "current_location", "home_location", "friends", "follows",
   "visited_restaurants", "visited_hotels", "likes", "dislikes",
   "rated_restaurants", "rated_hotels", "orders"]

/-- The result dict of `get_user_onboarding_state`. -/
structure DbStateRes : Type where
  success : Bool
  current_state : Dict
  missing_fields : List String
  user_is_onboarded : Value
  completion_percentage : Rat
deriving DecidableEq, Repr

/-- `get_user_onboarding_state` (`tools.py` lines 516-574).  Building
`current_state` reads `user.cultural_background` (`tools.py` line 551),
which the neomodel `User` does not declare (`models/user.py`), so on every
call that finds the user the read raises `AttributeError` into the
function's `except`-branch; a connection failure or a failed lookup lands in
a failure branch as well.  The function therefore always returns a
`success: False` result, and its success branch (the normalized
`current_state`, the database-computed missing fields and the completion
percentage) is dead code. -/
def get_user_onboarding_state (db : Db) (emailV : Value) : DbStateRes :=
  ⟨false, [], [], Value.none, 0⟩

/-- The result dict of `save_user_to_graph_db`. -/
structure SaveRes : Type where
  success : Bool
  message : String
deriving DecidableEq, Repr

/-- `save_user_to_graph_db` (`tools.py` lines 648-689): requires a truthy
email and looks the user up; the update block then evaluates the default
argument `user.cultural_background` (`tools.py` line 676), undeclared on the
neomodel `User`, so it raises `AttributeError` before `user.save()`
(`tools.py` line 685) on every call that reaches it.  The `except`-branch
returns `success: False` with the exception text (`errMsg` models
`str(e)`); the database is never written and `is_onboarded` is never
persisted. -/
def save_user_to_graph_db (db : Db) (errMsg : String)
    (user_info : Dict) : SaveRes × Db :=
  let emailV := pyGet user_info "email"
  if !truthy emailV then (⟨false, "Email is required to save user"⟩, db)
  else
    match dbFindV db emailV with
    | some _ => (⟨false, errMsg⟩, db)
    | Option.none => (⟨false, "User not found"⟩, db)

/-- The `setattr` loop of `information_extraction_node`
(`nodes.py` lines 66-68): `hasattr(user, field)` holds exactly for the
attribute set the `User` class declares (independent of which keys the
stored node carries), so each extracted entry whose field is declared and
whose value is not `None` is written onto the record; the rest are
skipped. -/
def applyExtractedToUser (u : Dict) (extracted : Dict) : Dict :=
  extracted.foldl
    (fun acc p =>
      if decide (p.1 ∈ userDeclaredFields) && p.2 ≠ Value.none then
        acc ++ [(p.1, p.2)]
      else acc) u

/-- The onboarding statuses of `OnboardingAgentState` (`state.py`). -/
inductive Status : Type where
  | pending_info : Status
  | ready : Status
  | pending_verification : Status
  | onboarded : Status
  | failed : Status
deriving DecidableEq, Repr

/-- The turn's raw user input: non-empty audio bytes, a text string, or
anything else (`None`, empty bytes, ...) which the transcription node
rejects. -/
inductive Input : Type where
  | audio : Input
  | txt (s : String) : Input
  | noInput : Input
deriving DecidableEq, Repr

/-- The slice of `OnboardingAgentState` (`state.py`, a `total=False`
TypedDict) that the onboarding turn graph reads and writes; `Option.none`
models an absent key. -/
structure AState : Type where
  user_input : Input
  transcribed_text : Option String
  extracted_information : Dict
  onboarding_status : Option Status
  system_response : Option String
  error : Option String
deriving DecidableEq, Repr

/-- Outcomes of the external collaborator calls a single turn can make:
speech-to-text, the extraction LLM, the best-effort extraction write's
`user.save()` (the one save the program can actually reach), and the
question restyling LLM.  `finalSaveErr` is the rendered text `str(e)` of the
`AttributeError` that `save_user_to_graph_db` raises at `tools.py` line 676
on every call that finds the user. -/
structure Oracle : Type where
  transcribeRes : Option String
  transcribeErr : String
  extractFails : Bool
  rawExtract : Dict
  dbWriteOk : Bool
  restyleRes : Option String
  finalSaveErr : String
deriving Repr

/-- `transcription_node` (`nodes.py` lines 19-40).  The second component
records whether the external transcription service was invoked.  Text input
is passed through verbatim; a transcription failure sets `error` and an
apologetic response and leaves `transcribed_text` as it was. -/
def transcription_node (o : Oracle) (st : AState) : AState × Bool :=
  match st.user_input with
  | Input.audio =>
    match o.transcribeRes with
    | some t => ({ st with transcribed_text := some t }, true)
    | Option.none =>
      ({ st with error := some ("Transcription failed: " ++ o.transcribeErr),
                 system_response := some "I couldn't understand your audio. Please try again." },
       true)
  | Input.txt s => ({ st with transcribed_text := some s }, false)
  | Input.noInput =>
      ({ st with error := some "No valid input provided",
                 system_response := some "I didn't receive any input. Please try again." },
       false)

/-- The best-effort write of `information_extraction_node`
(`nodes.py` lines 59-73): if the merged info has a truthy email and something
was extracted, look the user up and `setattr`-and-save; any failure
(including `dbWriteOk = false` for `user.save()` raising) is swallowed. -/
def extractionDirectSave (o : Oracle) (db : Db) (emailV : Value)
    (extracted : Dict) : Db :=
  if truthy emailV && !extracted.isEmpty then
    match emailV, dbFindV db emailV with
    | Value.str e, some u =>
      if o.dbWriteOk then dbSet db e (applyExtractedToUser u extracted) else db
    | _, _ => db
  else db

/-- `information_extraction_node` (`nodes.py` lines 43-129).  The third
component records whether `extract_user_information` was invoked.  With
truthy transcribed text: extract, merge into the accumulated info, write the
extraction to the database best-effort, then branch on
`get_user_onboarding_state`; without text, set the generic error response. -/
def information_extraction_node (o : Oracle) (st : AState) (db : Db) :
    AState × Db × Bool :=
  match st.transcribed_text with
  | some t =>
    if t ≠ "" then
      let extracted := extract_user_information o.extractFails o.rawExtract
      let current_info := st.extracted_information ++ extracted
      let st1 := { st with extracted_information := current_info }
      let emailV := pyGet current_info "email"
      let db1 := extractionDirectSave o db emailV extracted
      if truthy emailV then
        let ds := get_user_onboarding_state db1 emailV
        if ds.success then
          let missing := ds.missing_fields
          let merged := ds.current_state ++ current_info
          let st2 := { st1 with extracted_information := merged }
          if missing.isEmpty then
            ({ st2 with onboarding_status := some Status.ready,
                        system_response := some "Perfect! We have all the information we need to personalize your Aurasense experience." },
             db1, true)
          else
            let q := generate_contextual_onboarding_question o.restyleRes
                       (missing.headD "") merged
            ({ st2 with onboarding_status := some Status.pending_info,
                        system_response := some q },
             db1, true)
        else
          let missing := ONBOARDING_REQUIRED_FIELDS.filter
                           (fun f => !truthy (pyGet current_info f))
          if missing.isEmpty then
            ({ st1 with onboarding_status := some Status.ready,
                        system_response := some "Perfect! We have all the information we need to personalize your Aurasense experience." },
             db1, true)
          else
            let q := generate_contextual_onboarding_question o.restyleRes
                       (missing.headD "") current_info
            ({ st1 with onboarding_status := some Status.pending_info,
                        system_response := some q },
             db1, true)
      else
        ({ st1 with onboarding_status := some Status.pending_info,
                    system_response := some "I need your email address to continue with your personalization. Could you please provide your email?" },
         db1, true)
    else
      ({ st with error := some "No text to extract information from",
                 system_response := some "I couldn't process your input. Please try again." },
       db, false)
  | Option.none =>
      ({ st with error := some "No text to extract information from",
                 system_response := some "I couldn't process your input. Please try again." },
       db, false)

/-- The congratulatory message built by `onboarding_complete_node`
(`nodes.py` lines 150-152) from `info.get("first_name", "")`. -/
def congratsMessage (firstNameV : Value) : String :=
  (if truthy firstNameV then "Congratulations " ++ pyStr firstNameV ++ "! "
   else "Congratulations! ") ++
  "Your personalization is complete. Welcome to your personalized Aurasense experience!"

/-- `onboarding_complete_node` (`nodes.py` lines 132-183): re-checks the
database state; with no missing fields it runs `save_user_to_graph_db` and
reports `onboarded` with the congratulatory message on success or `failed`
with the save's error message; otherwise `pending_info`. -/
def onboarding_complete_node (o : Oracle) (st : AState) (db : Db) :
    AState × Db :=
  let info := st.extracted_information
  let emailV := pyGet info "email"
  if truthy emailV then
    let ds := get_user_onboarding_state db emailV
    if ds.success then
      if ds.missing_fields.isEmpty then
        let sr := save_user_to_graph_db db o.finalSaveErr info
        if sr.1.success then
          ({ st with onboarding_status := some Status.onboarded,
                     system_response := some (congratsMessage (dgetD info "first_name" (Value.str ""))) },
           sr.2)
        else
          ({ st with onboarding_status := some Status.failed,
                     system_response := some ("Onboarding failed: " ++ sr.1.message) },
           sr.2)
      else
        let n := ds.missing_fields.length
        ({ st with onboarding_status := some Status.pending_info,
                   system_response := some ("We still need " ++ toString n ++ " more piece" ++ (if n > 1 then "s" else "") ++ " of information to personalize your experience.") },
         db)
    else
      if ONBOARDING_REQUIRED_FIELDS.all (fun f => truthy (pyGet info f)) then
        let sr := save_user_to_graph_db db o.finalSaveErr info
        if sr.1.success then
          ({ st with onboarding_status := some Status.onboarded,
                     system_response := some "Congratulations! Your personalization is complete. Welcome to your personalized Aurasense experience!" },
           sr.2)
        else
          ({ st with onboarding_status := some Status.failed,
                     system_response := some ("Onboarding failed: " ++ sr.1.message) },
           sr.2)
      else
        ({ st with onboarding_status := some Status.pending_info,
                   system_response := some "We still need a bit more information to personalize your experience." },
         db)
  else
    ({ st with onboarding_status := some Status.pending_info,
               system_response := some "I need your email address to continue with your personalization." },
     db)

/-- `needs_more_info` (`nodes.py` line 267). -/
def needs_more_info (st : AState) : Bool :=
  st.onboarding_status = some Status.pending_info

/-- `is_onboarded` (`nodes.py` line 282). -/
def is_onboarded (st : AState) : Bool :=
  st.onboarding_status = some Status.onboarded

/-- `generate_response_node` (`nodes.py` lines 234-256): keeps a truthy
existing response, otherwise fills in a status-dependent default. -/
def generate_response_node (st : AState) : AState :=
  if (st.system_response.getD "") ≠ "" then st
  else
    let resp :=
      match st.onboarding_status with
      | some Status.pending_info => "Please provide your authentication information."
      | some Status.pending_verification => "Please complete voice verification."
      | some Status.failed => "Authentication failed. Please try again."
      | _ => "How can I help you today?"
    { st with system_response := some resp }

/-- `end_interaction_node` (`nodes.py` lines 259-263): unconditionally
replaces the response with the closing message. -/
def end_interaction_node (st : AState) : AState :=
  { st with system_response := some "Authentication complete. Thank you!" }

/-- Which external calls a turn made. -/
structure TurnLog : Type where
  transcriptionCalled : Bool
  extractionCalled : Bool
deriving DecidableEq, Repr

/-- The outcome of one turn through the compiled graph. -/
structure TurnResult : Type where
  state : AState
  db : Db
  log : TurnLog
deriving DecidableEq, Repr

/-- The turn state after the transcription and extraction stages, with the
database and call log (`graph.py` edge `transcription -> info_extraction`). -/
def turnStage2 (o : Oracle) (st0 : AState) (db : Db) : AState × Db × TurnLog :=
  let t1 := transcription_node o st0
  let t2 := information_extraction_node o t1.1 db
  (t2.1, t2.2.1, ⟨t1.2, t2.2.2⟩)

/-- One full turn through the compiled graph of
`create_onboarding_agent_graph` (`graph.py` lines 16-62):
`transcription -> info_extraction`, then `generate_response` when
`needs_more_info`, else `onboarding_complete`, then `end_interaction` when
`is_onboarded`, else `generate_response`. -/
def runTurn (o : Oracle) (st0 : AState) (db : Db) : TurnResult :=
  let s2 := turnStage2 o st0 db
  if needs_more_info s2.1 then ⟨generate_response_node s2.1, s2.2.1, s2.2.2⟩
  else
    let c := onboarding_complete_node o s2.1 s2.2.1
    if is_onboarded c.1 then ⟨end_interaction_node c.1, c.2, s2.2.2⟩
    else ⟨generate_response_node c.1, c.2, s2.2.2⟩

/-- `continue_onboarding_conversation` (`graph.py` lines 93-101): set the new
input on the stored state and run the graph. -/
def continue_onboarding_conversation (o : Oracle) (st : AState) (newInput : Input)
    (db : Db) : TurnResult :=
  runTurn o { st with user_input := newInput } db

/-- `_calculate_progress` (`onboarding.py` lines 323-341): the fraction of the
ten catalog fields whose value in the given `extracted_info` dict satisfies
`value is not None and value != [] and value != ""`, times 100. -/
def calculateProgress (extracted_info : Dict) : Rat :=
  (((onboarding_fields.filter
      (fun f =>
        pyGet extracted_info f ≠ Value.none &&
        pyGet extracted_info f ≠ Value.list [] &&
        pyGet extracted_info f ≠ Value.str "")).length : Rat)
    / (onboarding_fields.length : Rat)) * 100

/-- The fresh state `process_onboarding_input` builds when
`_get_session_state` finds nothing (`onboarding.py` lines 136-145): only the
authenticated user's email and names seed the conversation. -/
def freshSessionState (userObj : Dict) (transcript : String) : AState :=
  { user_input := Input.txt transcript,
    transcribed_text := Option.none,
    extracted_information :=
      [("email", pyGet userObj "email"),
       ("first_name", pyGet userObj "first_name"),
       ("last_name", pyGet userObj "last_name")],
    onboarding_status := some Status.pending_info,
    system_response := Option.none,
    error := Option.none }

/-- `_save_onboarding_to_user` (`onboarding.py` lines 298-320): the update
block evaluates the default argument `user.cultural_background`
(`onboarding.py` line 310), undeclared on the neomodel `User`, so it raises
`AttributeError` before `user.save()`; the `except`-branch only logs.  The
function therefore never writes anything, and the database is unchanged on
every call. -/
def routeSaveOnboardingToUser (db : Db) (userObj : Dict) (info : Dict) : Db :=
  db

/-- What the `/onboarding/input` route returns to the caller
(`onboarding.py` lines 171-180), minus the transport plumbing (session id,
base64 audio). -/
structure HttpTurnResponse : Type where
  message : String
  onboarding_status : Status
  progress : Rat
  extracted_info : Dict
deriving DecidableEq, Repr

/-- `process_onboarding_input` (`onboarding.py` lines 126-184): take the
stored session state or the fresh seed, run one turn of the graph, and build
the response; when the turn ends `onboarded`, additionally run
`_save_onboarding_to_user`. -/
def process_onboarding_input (o : Oracle)
    (stored : Option AState) (userObj : Dict) (transcript : String) (db : Db) :
    HttpTurnResponse × Db :=
  let st0 :=
    match stored with
    | some s => s
    | Option.none => freshSessionState userObj transcript
  let r := continue_onboarding_conversation o st0 (Input.txt transcript) db
  let db2 :=
    if is_onboarded r.state then
      routeSaveOnboardingToUser r.db userObj r.state.extracted_information
    else r.db
  (⟨r.state.system_response.getD "I understand. Let's continue with your personalization.",
    r.state.onboarding_status.getD Status.pending_info,
    calculateProgress r.state.extracted_information,
    r.state.extracted_information⟩,
   db2)

/-- The user-profile fields the onboarding flow tracks: the identity fields
plus the ten catalog fields, in the record's order. -/
def profileSeedFields : List String :=
  ["email", "first_name", "last_name", "username", "phone", "age",
   "dietary_restrictions", "cuisine_preferences", "price_range",
   "is_tourist", "cultural_background", "food_allergies",
   "spice_tolerance", "preferred_languages"]

/-- Modelled from the spec: missing from `src/` is the spec-side referent of
the session-resumption equivalence — §4.6's "start a fresh conversation
seeded with whatever durable fields already exist for this user".  The seed
is the durable record's current profile fields restricted to the present
ones (non-null, non-empty per §3), as a brand-new pending conversation on
the same utterance. -/
def specSeededState (u : Dict) (transcript : String) : AState :=
  { user_input := Input.txt transcript,
    transcribed_text := Option.none,
    extracted_information :=
      profileSeedFields.filterMap
        (fun f => match dget u f with
                  | some v => if isMissingDb v then Option.none else some (f, v)
                  | Option.none => Option.none),
    onboarding_status := some Status.pending_info,
    system_response := Option.none,
    error := Option.none }

/-- Pointwise (Python `==`) equality of two dicts. -/
def dictEquiv (a b : Dict) : Prop := ∀ k, dget a k = dget b k

/-- Two turn states that agree on every scalar field and whose conversation
maps agree pointwise (the association lists may differ in layout). -/
def agreeExcept (s1 s2 : AState) : Prop :=
  s1.user_input = s2.user_input ∧
  s1.transcribed_text = s2.transcribed_text ∧
  s1.onboarding_status = s2.onboarding_status ∧
  s1.system_response = s2.system_response ∧
  s1.error = s2.error ∧
  dictEquiv s1.extracted_information s2.extracted_information

/-! ### Association-list lemmas -/

theorem alGet_append {α : Type} (a b : List (String × α)) (k : String) :
    alGet (a ++ b) k =
      match alGet b k with
      | some v => some v
      | Option.none => alGet a k := by
  induction a with
  | nil =>
    simp only [List.nil_append, alGet]
    cases alGet b k <;> rfl
  | cons p rest ih =>
    rw [List.cons_append]
    show (match alGet (rest ++ b) k with
          | some v => some v
          | Option.none => if p.1 = k then some p.2 else Option.none) = _
    rw [ih]
    cases hb : alGet b k with
    | some v => rfl
    | none => rfl

theorem alGet_append_some {α : Type} {b : List (String × α)} {k : String}
    {v : α} (a : List (String × α)) (h : alGet b k = some v) :
    alGet (a ++ b) k = some v := by
  rw [alGet_append, h]

theorem alGet_append_none {α : Type} {b : List (String × α)} {k : String}
    (a : List (String × α)) (h : alGet b k = Option.none) :
    alGet (a ++ b) k = alGet a k := by
  rw [alGet_append, h]

theorem alGet_singleton_same {α : Type} (a : List (String × α)) (k : String)
    (v : α) : alGet (a ++ [(k, v)]) k = some v := by
  rw [alGet_append]
  simp [alGet]

theorem alGet_singleton_ne {α : Type} (a : List (String × α)) {k k' : String}
    (v : α) (h : k' ≠ k) : alGet (a ++ [(k, v)]) k' = alGet a k' := by
  rw [alGet_append]
  simp [alGet, Ne.symm h]

theorem alGet_mem {α : Type} {d : List (String × α)} {k : String} {v : α}
    (h : alGet d k = some v) : (k, v) ∈ d := by
  induction d with
  | nil => cases h
  | cons p rest ih =>
    simp only [alGet] at h
    cases hr : alGet rest k with
    | some w =>
      simp only [hr] at h
      cases h
      exact List.mem_cons_of_mem _ (ih hr)
    | none =>
      simp only [hr] at h
      by_cases hk : p.1 = k
      · rw [if_pos hk] at h
        cases h
        cases p
        cases hk
        exact List.mem_cons_self _ _
      · rw [if_neg hk] at h
        cases h

theorem alGet_cons_none {α : Type} {p : String × α} {rest : List (String × α)}
    {k : String} (h : alGet (p :: rest) k = Option.none) :
    alGet rest k = Option.none ∧ p.1 ≠ k := by
  simp only [alGet] at h
  cases hr : alGet rest k with
  | some w => rw [hr] at h; cases h
  | none =>
    rw [hr] at h
    refine ⟨rfl, ?_⟩
    intro hk
    rw [if_pos hk] at h
    cases h

/-! ### Presence-rule lemmas -/

theorem presentExtract_not_missing {v : Value} (h : presentExtract v = true) :
    isMissingDb v = false := by
  cases v <;> simp_all [presentExtract, isMissingDb]

theorem truthy_not_missing {v : Value} (h : truthy v = true) :
    isMissingDb v = false := by
  cases v <;> simp_all [truthy, isMissingDb]

theorem extract_mem_present {fails : Bool} {raw : Dict} {p : String × Value}
    (h : p ∈ extract_user_information fails raw) : presentExtract p.2 = true := by
  unfold extract_user_information at h
  split at h
  · cases h
  · exact (List.mem_filter.mp h).2

theorem extract_dget_present {fails : Bool} {raw : Dict} {f : String} {v : Value}
    (h : dget (extract_user_information fails raw) f = some v) :
    presentExtract v = true :=
  extract_mem_present (alGet_mem h)

/-! ### The best-effort extraction write -/

/-- A field without an entry in the extraction result is untouched by the
`setattr` loop. -/
theorem applyExtractedToUser_dget_none {ext : Dict} {f : String}
    (h : dget ext f = Option.none) (u : Dict) :
    dget (applyExtractedToUser u ext) f = dget u f := by
  unfold applyExtractedToUser
  unfold dget at h ⊢
  induction ext generalizing u with
  | nil => rfl
  | cons p rest ih =>
    obtain ⟨hr, hp⟩ := alGet_cons_none h
    rw [List.foldl_cons]
    rw [ih hr]
    by_cases hc : (decide (p.1 ∈ userDeclaredFields) && p.2 ≠ Value.none) = true
    · rw [if_pos hc]
      exact alGet_singleton_ne u p.2 (Ne.symm hp)
    · rw [if_neg hc]

/-! ### Concrete fixtures shared by counterexamples and witnesses -/

/-- A fully onboardable user record: every catalog field present. -/
def userComplete : Dict :=
  [("email", Value.str "john@example.com"), ("first_name", Value.str "John"),
   ("last_name", Value.str "Doe"), ("username", Value.str "johndoe"),
   ("phone", Value.str "+1234567890"), ("age", Value.int 30),
   ("dietary_restrictions", Value.list ["vegetarian"]),
   ("cuisine_preferences", Value.list ["italian"]),
   ("price_range", Value.str "budget"), ("is_tourist", Value.bool false),
   ("cultural_background", Value.list ["american"]),
   ("food_allergies", Value.list ["nuts"]),
   ("spice_tolerance", Value.int 3),
   ("preferred_languages", Value.list ["en"]),
   ("is_onboarded", Value.bool false), ("password_hash", Value.str "h")]

/-- A user record with only `age` (and the boolean `is_tourist` default)
present among the catalog fields. -/
def userPartial : Dict :=
  [("email", Value.str "john@example.com"), ("first_name", Value.str "John"),
   ("last_name", Value.str "Doe"), ("username", Value.none),
   ("phone", Value.none), ("age", Value.int 30),
   ("dietary_restrictions", Value.none), ("cuisine_preferences", Value.none),
   ("price_range", Value.none), ("is_tourist", Value.bool false),
   ("cultural_background", Value.none), ("food_allergies", Value.none),
   ("spice_tolerance", Value.none), ("preferred_languages", Value.none),
   ("is_onboarded", Value.bool false), ("password_hash", Value.str "h")]

/-- A user record with no catalog field present except the boolean
`is_tourist` default. -/
def userNoCatalog : Dict :=
  [("email", Value.str "john@example.com"), ("first_name", Value.str "John"),
   ("last_name", Value.str "Doe"), ("username", Value.none),
   ("phone", Value.none), ("age", Value.none),
   ("dietary_restrictions", Value.none), ("cuisine_preferences", Value.none),
   ("price_range", Value.none), ("is_tourist", Value.bool false),
   ("cultural_background", Value.none), ("food_allergies", Value.none),
   ("spice_tolerance", Value.none), ("preferred_languages", Value.none),
   ("is_onboarded", Value.bool false), ("password_hash", Value.str "h")]

/-- A user record whose only present profile fields are the sign-up
identity: email and the two names. -/
def userBare : Dict :=
  [("email", Value.str "bo@example.com"), ("first_name", Value.str "Bo"),
   ("last_name", Value.str "Li"), ("username", Value.none),
   ("phone", Value.none), ("age", Value.none),
   ("dietary_restrictions", Value.none), ("cuisine_preferences", Value.none),
   ("price_range", Value.none), ("is_tourist", Value.none),
   ("cultural_background", Value.none), ("food_allergies", Value.none),
   ("spice_tolerance", Value.none), ("preferred_languages", Value.none),
   ("is_onboarded", Value.bool false), ("password_hash", Value.str "h")]

/-- A conversation map carrying a truthy value for the email and all nine
required fields — the regime in which the completion node attempts the
final save. -/
def allInfoState : AState :=
  { user_input := Input.txt "ok", transcribed_text := Option.none,
    extracted_information :=
      [("email", Value.str "john@example.com"),
       ("first_name", Value.str "John"),
       ("age", Value.int 30),
       ("dietary_restrictions", Value.list ["none"]),
       ("cuisine_preferences", Value.list ["italian"]),
       ("price_range", Value.str "budget"),
       ("is_tourist", Value.bool true),
       ("cultural_background", Value.list ["none"]),
       ("food_allergies", Value.list ["none"]),
       ("spice_tolerance", Value.int 3),
       ("preferred_languages", Value.list ["en"])],
    onboarding_status := some Status.ready,
    system_response := Option.none, error := Option.none }

/-- All collaborators healthy except the two LLM calls (extraction and
restyling), which fail — the spec's graceful-degradation regime.
`finalSaveErr` is the rendered `AttributeError` text of the final save. -/
def oracleQuiet : Oracle :=
  { transcribeRes := Option.none, transcribeErr := "boom", extractFails := true,
    rawExtract := [], dbWriteOk := true,
    restyleRes := Option.none,
    finalSaveErr := "'User' object has no attribute 'cultural_background'" }

/-- `oracleQuiet` with the extraction LLM returning `age = 25` and the
best-effort extraction write failing. -/
def oracleExtractAge : Oracle :=
  { oracleQuiet with extractFails := false,
                     rawExtract := [("age", Value.int 25)], dbWriteOk := false }

/-- `oracleQuiet` with the extraction LLM returning `age = 25` and the
best-effort extraction write succeeding. -/
def oracleWriteAge : Oracle :=
  { oracleQuiet with extractFails := false,
                     rawExtract := [("age", Value.int 25)] }

/-! ### C3 -/

/-- C3, as stated, is false: the empty string is dropped as absent by the
extraction filter yet counted as present by the database-backed missing-field
computation, and the database-backed field list is not the fallback field
list (it has `phone`, the fallback does not). -/
theorem C3_counterexample :
    presentExtract (Value.str "") = false ∧
    isMissingDb (Value.str "") = false ∧
    onboarding_fields ≠ ONBOARDING_REQUIRED_FIELDS := by
  refine ⟨rfl, rfl, ?_⟩
  decide

/-- C3 amended: the extraction filter and the in-memory fallback presence
test (Python truthiness) agree in the claimed direction, the extraction
filter and the database-backed test agree except on the empty string, and
the database-backed path ranges over the fallback's nine fields plus
`phone`. -/
theorem C3_presence_rules_amended :
    (∀ v : Value, presentExtract v = false → truthy v = false) ∧
    (∀ v : Value, presentExtract v = false →
        (isMissingDb v = true ∨ v = Value.str "")) ∧
    onboarding_fields = ONBOARDING_REQUIRED_FIELDS ++ ["phone"] := by
  refine ⟨?_, ?_, by decide⟩
  · intro v hv
    cases v <;> simp_all [presentExtract, truthy]
  · intro v hv
    cases v <;> simp_all [presentExtract, isMissingDb]

/-! ### C6 -/

/-- C6: the extraction adapter never returns a null, empty-string or
empty-collection value (every surviving entry passes `presentExtract`), and
any failure of the completion call yields the empty map. -/
theorem C6_extraction_filter (fails : Bool) (raw : Dict) :
    (extract_user_information fails raw).all (fun p => presentExtract p.2) = true ∧
    extract_user_information true raw = [] := by
  constructor
  · rw [List.all_eq_true]
    intro p hp
    exact extract_mem_present hp
  · rfl

/-! ### C9 -/

/-- C9: when the restyling call fails, the question generator returns the
deterministic base question for the field, for every field and every context
map. -/
theorem C9_question_fallback (missing_field : String) (current_state : Dict) :
    generate_contextual_onboarding_question Option.none missing_field current_state
      = base_question missing_field current_state := by
  unfold generate_contextual_onboarding_question
  split <;> rfl

/-! ### C10 -/

/-- C10: string input passes through the transcription stage verbatim —
`transcribed_text` becomes exactly the input string, `error` is untouched,
and the external transcription service is not invoked. -/
theorem C10_text_passthrough (o : Oracle) (st : AState) (s : String) :
    transcription_node o { st with user_input := Input.txt s }
      = ({ st with user_input := Input.txt s, transcribed_text := some s },
         false) := by
  rfl

/-- The `/onboarding/input` response's `progress` is by construction
`_calculate_progress` of the response's `extracted_info`. -/
theorem process_progress_projection (o : Oracle)
    (stored : Option AState) (userObj : Dict) (transcript : String) (db : Db) :
    (process_onboarding_input o stored userObj transcript db).1.progress
      = calculateProgress
          ((process_onboarding_input o stored userObj transcript db).1.extracted_info) :=
  rfl

/-! ### C2 counterexample -/

/-- A stored conversation state of an already-onboarded session (the merged
map the engine persists after completion carries `is_tourist = False`). -/
def onboardedSessionState : AState :=
  { user_input := Input.txt "hello", transcribed_text := Option.none,
    extracted_information :=
      [("email", Value.str "john@example.com"), ("first_name", Value.str "John"),
       ("is_tourist", Value.bool false)],
    onboarding_status := some Status.onboarded,
    system_response := Option.none, error := Option.none }

/-- C2, as stated, is false: a further turn on an onboarded session
regresses the status to `pending_info`.  The database-backed state check
always fails (building `current_state` raises `AttributeError` at
`tools.py` line 551), so the turn takes the in-memory fallback, which
computes missingness by Python truthiness — and `is_tourist = False` is
falsy. -/
theorem C2_counterexample :
    onboardedSessionState.onboarding_status = some Status.onboarded ∧
    (runTurn oracleQuiet onboardedSessionState
      [("john@example.com", userComplete)]).state.onboarding_status
      = some Status.pending_info := by
  decide

/-! ### C4 counterexample -/

/-- A stored conversation state for the user with a truthy first name and no
stale entries. -/
def completeSessionState : AState :=
  { user_input := Input.txt "ok", transcribed_text := Option.none,
    extracted_information :=
      [("email", Value.str "john@example.com"), ("first_name", Value.str "John")],
    onboarding_status := some Status.pending_info,
    system_response := Option.none, error := Option.none }

/-- C4, as stated, is false: here the durable record is catalog-complete —
the claim's missing-field formula over the record is empty — yet the turn
ends `pending_info` with a question, neither `onboarded` with the
congratulatory message nor `failed`.  The database-backed missing list is
never actually computed (`AttributeError` at `tools.py` line 551), so the
turn branches on the conversation map instead, and the final save that
would mark `is_onboarded` raises at `tools.py` line 676 on every call that
reaches it. -/
theorem C4_counterexample :
    (onboarding_fields.all fun f => !isMissingDb (pyGet userComplete f)) = true ∧
    (runTurn oracleQuiet completeSessionState
      [("john@example.com", userComplete)]).state.onboarding_status
      = some Status.pending_info ∧
    (runTurn oracleQuiet completeSessionState
      [("john@example.com", userComplete)]).state.system_response
      ≠ some (congratsMessage (Value.str "John")) ∧
    (runTurn oracleQuiet completeSessionState
      [("john@example.com", userComplete)]).state.system_response
      ≠ some "Authentication complete. Thank you!" := by
  decide

/-! ### C5 counterexample -/

/-- A stored conversation state carrying the previous turn's transcribed
text, as the WebSocket transport persists between turns. -/
def staleTextState : AState :=
  { user_input := Input.audio, transcribed_text := some "I am vegetarian",
    extracted_information := [("email", Value.str "john@example.com")],
    onboarding_status := some Status.pending_info,
    system_response := Option.none, error := Option.none }

/-- C5, as stated, is false: on audio input whose transcription fails, a turn
whose state still carries the previous turn's transcribed text runs field
extraction anyway (on the stale text) and replaces the transcription apology
with a next question. -/
theorem C5_counterexample :
    staleTextState.user_input = Input.audio ∧
    oracleQuiet.transcribeRes = Option.none ∧
    (runTurn oracleQuiet staleTextState
      [("john@example.com", userPartial)]).log.extractionCalled = true ∧
    (runTurn oracleQuiet staleTextState
      [("john@example.com", userPartial)]).state.system_response
      ≠ some "I couldn't understand your audio. Please try again." := by
  decide

/-! ### C7 counterexample -/

/-- C7, as stated, is false: the returned completion percentage is computed
from the turn's in-memory conversation map, not from the durable record.
Here the fresh session seeds only email and the two names, the extraction
LLM fails, and the route reports 0 — while the durable record holds two
present catalog fields (`age = 30` and `is_tourist = False`, present by the
route's own non-null / non-empty test), so the claimed durable formula gives
20. -/
theorem C7_counterexample :
    (process_onboarding_input oracleQuiet Option.none userPartial
      "hi" [("john@example.com", userPartial)]).1.progress = 0 ∧
    calculateProgress userPartial = 20 ∧
    (process_onboarding_input oracleQuiet Option.none userPartial
      "hi" [("john@example.com", userPartial)]).1.progress
      ≠ calculateProgress userPartial := by
  have hp : (process_onboarding_input oracleQuiet Option.none userPartial
      "hi" [("john@example.com", userPartial)]).1.progress = 0 := by
    rw [process_progress_projection]
    have hlen : (onboarding_fields.filter
        (fun f =>
          pyGet ((process_onboarding_input oracleQuiet Option.none
            userPartial "hi"
            [("john@example.com", userPartial)]).1.extracted_info) f
              ≠ Value.none &&
          pyGet ((process_onboarding_input oracleQuiet Option.none
            userPartial "hi"
            [("john@example.com", userPartial)]).1.extracted_info) f
              ≠ Value.list [] &&
          pyGet ((process_onboarding_input oracleQuiet Option.none
            userPartial "hi"
            [("john@example.com", userPartial)]).1.extracted_info) f
              ≠ Value.str "")).length = 0 := by decide
    unfold calculateProgress
    rw [hlen]
    norm_num
  have hd : calculateProgress userPartial = 20 := by
    have hlen : (onboarding_fields.filter
        (fun f =>
          pyGet userPartial f ≠ Value.none &&
          pyGet userPartial f ≠ Value.list [] &&
          pyGet userPartial f ≠ Value.str "")).length = 2 := by decide
    unfold calculateProgress
    rw [hlen]
    norm_num [onboarding_fields]
  refine ⟨hp, hd, ?_⟩
  rw [hp, hd]
  norm_num

/-! ### C7 amended -/

/-- C7 amended: for every `/onboarding/input` turn, the returned completion
percentage equals 100 times the number of catalog fields present in the
turn's returned in-memory conversation map (`extracted_info`; present
meaning non-null, non-empty-string, non-empty-list) divided by the ten
catalog fields — never the durable record, which cannot reach the map (the
database-backed state read always fails); the WebSocket transport returns
boolean step progress, no percentage. -/
theorem C7_progress_amended (o : Oracle)
    (stored : Option AState) (userObj : Dict) (transcript : String) (db : Db) :
    (process_onboarding_input o stored userObj transcript db).1.progress
      = 100 * (((onboarding_fields.filter (fun f =>
          pyGet ((process_onboarding_input o stored userObj
            transcript db).1.extracted_info) f ≠ Value.none &&
          pyGet ((process_onboarding_input o stored userObj
            transcript db).1.extracted_info) f ≠ Value.list [] &&
          pyGet ((process_onboarding_input o stored userObj
            transcript db).1.extracted_info) f ≠ Value.str "")).length : Rat)
        / (onboarding_fields.length : Rat)) := by
  rw [process_progress_projection]
  unfold calculateProgress
  ring

/-! ### C5 amended -/

/-- C5 amended: on audio input whose transcription fails, the turn does not
stop — it proceeds to the extraction stage — but when the conversation state
carries no previously-transcribed text (none, or the empty string) the
extraction stage skips field extraction, replaces the transcription apology
with the generic apology "I couldn't process your input. Please try again.",
records the error "No text to extract information from", leaves a
`pending_info` status unchanged, and touches no durable state.  (With stale
transcribed text from a previous turn, extraction runs on that text — the
counterexample.) -/
theorem C5_transcription_failure_amended (o : Oracle) (st : AState) (db : Db)
    (haudio : st.user_input = Input.audio)
    (hfail : o.transcribeRes = Option.none)
    (hstale : st.transcribed_text = Option.none ∨ st.transcribed_text = some "")
    (hstatus : st.onboarding_status = some Status.pending_info) :
    (runTurn o st db).log.extractionCalled = false ∧
    (runTurn o st db).state.onboarding_status = some Status.pending_info ∧
    (runTurn o st db).state.system_response =
      some "I couldn't process your input. Please try again." ∧
    (runTurn o st db).state.error = some "No text to extract information from" ∧
    (runTurn o st db).db = db := by
  rcases hstale with h | h <;>
    simp [runTurn, turnStage2, transcription_node, information_extraction_node,
          needs_more_info, generate_response_node, haudio, hfail, h, hstatus]

/-- C5 amended, instantiated: the no-stale-text turn on failing audio. -/
theorem C5_witness :
    (runTurn oracleQuiet
      ⟨Input.audio, Option.none, [], some Status.pending_info, Option.none,
        Option.none⟩ []).log.extractionCalled = false ∧
    (runTurn oracleQuiet
      ⟨Input.audio, Option.none, [], some Status.pending_info, Option.none,
        Option.none⟩ []).state.onboarding_status = some Status.pending_info ∧
    (runTurn oracleQuiet
      ⟨Input.audio, Option.none, [], some Status.pending_info, Option.none,
        Option.none⟩ []).state.system_response =
      some "I couldn't process your input. Please try again." ∧
    (runTurn oracleQuiet
      ⟨Input.audio, Option.none, [], some Status.pending_info, Option.none,
        Option.none⟩ []).state.error = some "No text to extract information from" ∧
    (runTurn oracleQuiet
      ⟨Input.audio, Option.none, [], some Status.pending_info, Option.none,
        Option.none⟩ []).db = [] :=
  C5_transcription_failure_amended oracleQuiet _ [] rfl rfl (Or.inl rfl) rfl

/-! ### get_user_onboarding_state always fails -/

/-- Every call to `get_user_onboarding_state` returns the failure result:
the success branch is dead code (`AttributeError` at `tools.py` line 551). -/
theorem gus_fail (db : Db) (e : Value) :
    get_user_onboarding_state db e = ⟨false, [], [], Value.none, 0⟩ := rfl

/-- The `db_state.get("success")` guards in the two nodes never fire. -/
theorem gus_not_success (db : Db) (e : Value) :
    ¬((get_user_onboarding_state db e).success = true) := by
  simp [get_user_onboarding_state]

/-! ### Status bookkeeping of the response nodes -/

theorem transcription_node_status (o : Oracle) (st : AState) :
    (transcription_node o st).1.onboarding_status = st.onboarding_status := by
  unfold transcription_node
  cases st.user_input <;> try rfl
  cases o.transcribeRes <;> rfl

theorem transcription_node_ext (o : Oracle) (st : AState) :
    (transcription_node o st).1.extracted_information
      = st.extracted_information := by
  unfold transcription_node
  cases st.user_input <;> try rfl
  cases o.transcribeRes <;> rfl

theorem generate_response_node_status (st : AState) :
    (generate_response_node st).onboarding_status = st.onboarding_status := by
  unfold generate_response_node
  split <;> rfl

theorem end_interaction_node_status (st : AState) :
    (end_interaction_node st).onboarding_status = st.onboarding_status := rfl

/-! ### The best-effort write, seen from the database -/

/-- After the best-effort extraction write, the record at any email is either
untouched or is the old record with the extracted fields `setattr`-ed. -/
theorem extractionDirectSave_dbGet {db : Db} {e : String} {u : Dict}
    (o : Oracle) (emailV : Value) (ext : Dict) (hget : dbGet db e = some u) :
    dbGet (extractionDirectSave o db emailV ext) e = some u ∨
    dbGet (extractionDirectSave o db emailV ext) e =
      some (applyExtractedToUser u ext) := by
  unfold extractionDirectSave
  split
  · split
    · rename_i e' u0 hguard hfound
      split
      · by_cases he : e' = e
        · subst he
          simp only [dbFindV] at hfound
          rw [hget] at hfound
          cases hfound
          right
          exact alGet_singleton_same db e' _
        · left
          rw [show dbGet (dbSet db e' (applyExtractedToUser u0 ext)) e
                = dbGet db e from alGet_singleton_ne db _ (Ne.symm he)]
          exact hget
      · left; exact hget
    · left; exact hget
  · left; exact hget

/-! ### save_user_to_graph_db: always the except-branch -/

/-- `save_user_to_graph_db` never touches the database. -/
theorem save_db (db : Db) (err : String) (info : Dict) :
    (save_user_to_graph_db db err info).2 = db := by
  simp only [save_user_to_graph_db]
  split
  · rfl
  · split <;> rfl

/-- `save_user_to_graph_db` never succeeds: the `AttributeError` at
`tools.py` line 676 fires before `user.save()`. -/
theorem save_success_false (db : Db) (err : String) (info : Dict) :
    (save_user_to_graph_db db err info).1.success = false := by
  simp only [save_user_to_graph_db]
  split
  · rfl
  · split <;> rfl

/-- With a truthy email resolving to a stored record, the save returns
exactly the exception text, and the database unchanged. -/
theorem save_found_msg {db : Db} (err : String) (info : Dict) {e : String}
    {u : Dict} (hemail : pyGet info "email" = Value.str e) (he : e ≠ "")
    (hfound : dbGet db e = some u) :
    save_user_to_graph_db db err info = (⟨false, err⟩, db) := by
  have hfind : dbFindV db (Value.str e) = some u := by simp [dbFindV, hfound]
  simp only [save_user_to_graph_db, hemail]
  rw [if_neg (by simp [truthy, he]), hfind]

/-- `save_user_to_graph_db` reads the info dict only through its email. -/
theorem save_congr (db : Db) (err : String) {i1 i2 : Dict}
    (h : pyGet i1 "email" = pyGet i2 "email") :
    save_user_to_graph_db db err i1 = save_user_to_graph_db db err i2 := by
  simp only [save_user_to_graph_db]
  rw [h]

/-! ### The completion node in the reachable regime -/

/-- The completion node never touches the database. -/
theorem complete_node_db (o : Oracle) (st : AState) (db : Db) :
    (onboarding_complete_node o st db).2 = db := by
  simp only [onboarding_complete_node]
  by_cases hem : truthy (pyGet st.extracted_information "email") = true
  · rw [if_pos hem]
    rw [if_neg (gus_not_success _ _)]
    by_cases ha : (ONBOARDING_REQUIRED_FIELDS.all
        fun f => truthy (pyGet st.extracted_information f)) = true
    · rw [if_pos ha]
      by_cases hs : (save_user_to_graph_db db o.finalSaveErr
          st.extracted_information).1.success = true
      · rw [if_pos hs]
        exact save_db _ _ _
      · rw [if_neg hs]
        exact save_db _ _ _
    · rw [if_neg ha]
  · rw [if_neg hem]

/-- Every completion-node outcome is `pending_info` or `failed`: the
database-backed branch is dead and the final save always fails, so
`onboarded` is unreachable. -/
theorem complete_node_status (o : Oracle) (st : AState) (db : Db) :
    (onboarding_complete_node o st db).1.onboarding_status
      = some Status.pending_info ∨
    (onboarding_complete_node o st db).1.onboarding_status
      = some Status.failed := by
  simp only [onboarding_complete_node]
  by_cases hem : truthy (pyGet st.extracted_information "email") = true
  · rw [if_pos hem]
    rw [if_neg (gus_not_success _ _)]
    by_cases ha : (ONBOARDING_REQUIRED_FIELDS.all
        fun f => truthy (pyGet st.extracted_information f)) = true
    · rw [if_pos ha]
      rw [if_neg (show ¬((save_user_to_graph_db db o.finalSaveErr
          st.extracted_information).1.success = true) by
        simp [save_success_false])]
      right
      rfl
    · rw [if_neg ha]
      left
      rfl
  · rw [if_neg hem]
    left
    rfl

/-- The completion node with a truthy resolvable email and an all-truthy
conversation map: the save is attempted, always fails, and the node reports
`failed` with the exception text. -/
theorem complete_node_all_truthy (o : Oracle) (st : AState) (db : Db)
    (e : String) (u : Dict)
    (hemail : pyGet st.extracted_information "email" = Value.str e)
    (he : e ≠ "")
    (hfound : dbGet db e = some u)
    (hall : (ONBOARDING_REQUIRED_FIELDS.all
        fun f => truthy (pyGet st.extracted_information f)) = true) :
    onboarding_complete_node o st db =
      ({ st with onboarding_status := some Status.failed,
                 system_response :=
                   some ("Onboarding failed: " ++ o.finalSaveErr) }, db) := by
  simp only [onboarding_complete_node, hemail]
  rw [if_pos (show truthy (Value.str e) = true by simp [truthy, he])]
  rw [if_neg (gus_not_success _ _)]
  rw [if_pos hall]
  rw [save_found_msg o.finalSaveErr st.extracted_information hemail he hfound]
  rw [if_neg (by simp)]

/-! ### C4 amended -/

/-- C4 amended: the authoritative (database-backed) missing-field list is
never computed — `get_user_onboarding_state` always fails — so the
completion decision is taken by the nine-field truthiness fallback over the
conversation map.  When the map carries a truthy resolvable email and all
nine required fields, the final save is attempted and always raises before
`user.save()`, so the completion step reports `failed` with
`Onboarding failed:` plus the exception text, the database is untouched, and
`onboarded` (with its congratulatory message) is unreachable on every
input. -/
theorem C4_final_save_amended (o : Oracle) (st : AState) (db : Db)
    (e : String) (u : Dict)
    (hemail : pyGet st.extracted_information "email" = Value.str e)
    (he : e ≠ "")
    (hfound : dbGet db e = some u)
    (hall : (ONBOARDING_REQUIRED_FIELDS.all
        fun f => truthy (pyGet st.extracted_information f)) = true) :
    (onboarding_complete_node o st db).1.onboarding_status
      = some Status.failed ∧
    (onboarding_complete_node o st db).1.system_response
      = some ("Onboarding failed: " ++ o.finalSaveErr) ∧
    (onboarding_complete_node o st db).2 = db ∧
    ∀ (o2 : Oracle) (st2 : AState) (db2 : Db),
      (onboarding_complete_node o2 st2 db2).1.onboarding_status
        ≠ some Status.onboarded := by
  rw [complete_node_all_truthy o st db e u hemail he hfound hall]
  refine ⟨rfl, rfl, rfl, ?_⟩
  intro o2 st2 db2
  rcases complete_node_status o2 st2 db2 with h | h <;> simp [h]

/-- C4 amended, instantiated at an all-truthy conversation map. -/
theorem C4_witness :
    (onboarding_complete_node oracleQuiet allInfoState
        [("john@example.com", userComplete)]).1.onboarding_status
      = some Status.failed ∧
    (onboarding_complete_node oracleQuiet allInfoState
        [("john@example.com", userComplete)]).1.system_response
      = some ("Onboarding failed: " ++ oracleQuiet.finalSaveErr) ∧
    (onboarding_complete_node oracleQuiet allInfoState
        [("john@example.com", userComplete)]).2
      = [("john@example.com", userComplete)] ∧
    ∀ (o2 : Oracle) (st2 : AState) (db2 : Db),
      (onboarding_complete_node o2 st2 db2).1.onboarding_status
        ≠ some Status.onboarded :=
  C4_final_save_amended oracleQuiet allInfoState
    [("john@example.com", userComplete)] "john@example.com" userComplete
    (by decide) (by decide) (by decide) (by decide)

/-- The final two graph edges never change the status: the turn's final
status is the stage-2 status when it is `pending_info`, else the completion
node's status. -/
theorem runTurn_status_of_stage2 (o : Oracle) (st0 : AState) (db : Db) :
    (runTurn o st0 db).state.onboarding_status =
      if needs_more_info (turnStage2 o st0 db).1
      then (turnStage2 o st0 db).1.onboarding_status
      else (onboarding_complete_node o (turnStage2 o st0 db).1
              (turnStage2 o st0 db).2.1).1.onboarding_status := by
  unfold runTurn
  by_cases h : needs_more_info (turnStage2 o st0 db).1
  · simp only [h, if_pos, if_true]
    exact generate_response_node_status _
  · simp only [h, if_false, Bool.false_eq_true]
    by_cases h2 : is_onboarded (onboarding_complete_node o (turnStage2 o st0 db).1
        (turnStage2 o st0 db).2.1).1
    · simp only [h2, if_true]
      exact end_interaction_node_status _
    · simp only [h2, Bool.false_eq_true, if_false]
      exact generate_response_node_status _

/-- The extraction stage leaves the conversation map, the database and the
status untouched when there is no truthy transcribed text, and sets the
generic extraction error. -/
theorem extraction_node_no_text (o : Oracle) (st : AState) (db : Db)
    (h : st.transcribed_text = Option.none ∨ st.transcribed_text = some "") :
    information_extraction_node o st db =
      ({ st with error := some "No text to extract information from",
                 system_response := some "I couldn't process your input. Please try again." },
       db, false) := by
  rcases h with h | h <;> simp [information_extraction_node, h]

/-! ### C2 amended -/

/-- C2 amended: terminal stability fails structurally — the `onboarded`
status never survives a turn at all.  An onboarded session bypasses the
needs-more-info edge, so the turn always runs the completion node; its
database-backed branch is dead (`AttributeError` at `tools.py` line 551)
and the final save always fails (`AttributeError` at `tools.py` line 676),
so every further turn ends `pending_info` (when the conversation map lacks
a truthy email or one of the nine required fields) or `failed` (when it has
them all) — never `onboarded` again. -/
theorem C2_terminal_stability_amended (o : Oracle) (st0 : AState) (db : Db)
    (hstatus : st0.onboarding_status = some Status.onboarded) :
    (runTurn o st0 db).state.onboarding_status ≠ some Status.onboarded ∧
    ((runTurn o st0 db).state.onboarding_status = some Status.pending_info ∨
     (runTurn o st0 db).state.onboarding_status = some Status.failed) := by
  have hdisj : (runTurn o st0 db).state.onboarding_status
        = some Status.pending_info ∨
      (runTurn o st0 db).state.onboarding_status = some Status.failed := by
    rw [runTurn_status_of_stage2]
    by_cases hn : needs_more_info (turnStage2 o st0 db).1 = true
    · rw [if_pos hn]
      left
      simpa [needs_more_info] using hn
    · rw [if_neg hn]
      exact complete_node_status o _ _
  refine ⟨?_, hdisj⟩
  rcases hdisj with h | h <;> simp [h]

/-- C2 amended, instantiated at a stored onboarded session. -/
theorem C2_witness :
    (runTurn oracleQuiet onboardedSessionState
        [("john@example.com", userComplete)]).state.onboarding_status
      ≠ some Status.onboarded ∧
    ((runTurn oracleQuiet onboardedSessionState
        [("john@example.com", userComplete)]).state.onboarding_status
      = some Status.pending_info ∨
     (runTurn oracleQuiet onboardedSessionState
        [("john@example.com", userComplete)]).state.onboarding_status
      = some Status.failed) :=
  C2_terminal_stability_amended oracleQuiet onboardedSessionState
    [("john@example.com", userComplete)] rfl

/-! ### Further support lemmas -/

theorem pyGet_of_dget_some {d : Dict} {k : String} {v : Value}
    (h : dget d k = some v) : pyGet d k = v := by
  unfold pyGet
  rw [h]
  rfl

theorem dget_some_of_truthy {d : Dict} {k : String}
    (h : truthy (pyGet d k) = true) : dget d k = some (pyGet d k) := by
  unfold pyGet at h ⊢
  cases hd : dget d k with
  | none => rw [hd] at h; simp [truthy] at h
  | some w => rfl

/-- Which databases a full turn can leave behind. -/
theorem runTurn_db_cases (o : Oracle) (st0 : AState) (db : Db) :
    (runTurn o st0 db).db = (turnStage2 o st0 db).2.1 ∨
    (runTurn o st0 db).db =
      (onboarding_complete_node o (turnStage2 o st0 db).1
        (turnStage2 o st0 db).2.1).2 := by
  simp only [runTurn]
  by_cases h : needs_more_info (turnStage2 o st0 db).1 = true
  · rw [if_pos h]
    exact Or.inl rfl
  · rw [if_neg h]
    by_cases h2 : is_onboarded (onboarding_complete_node o (turnStage2 o st0 db).1
        (turnStage2 o st0 db).2.1).1 = true
    · rw [if_pos h2]
      exact Or.inr rfl
    · rw [if_neg h2]
      exact Or.inr rfl

/-- The databases the extraction stage can leave behind: untouched, or the
best-effort write. -/
theorem extraction_node_db_cases (o : Oracle) (st : AState) (db : Db) :
    (information_extraction_node o st db).2.1 = db ∨
    (information_extraction_node o st db).2.1
      = extractionDirectSave o db
          (pyGet (st.extracted_information
             ++ extract_user_information o.extractFails o.rawExtract) "email")
          (extract_user_information o.extractFails o.rawExtract) := by
  cases hT : st.transcribed_text with
  | none =>
    rw [extraction_node_no_text o st db (Or.inl hT)]
    exact Or.inl rfl
  | some t =>
    by_cases htne : t = ""
    · subst htne
      rw [extraction_node_no_text o st db (Or.inr hT)]
      exact Or.inl rfl
    · simp only [information_extraction_node, hT]
      rw [if_pos htne]
      right
      by_cases he : truthy (pyGet (st.extracted_information
          ++ extract_user_information o.extractFails o.rawExtract) "email") = true
      · rw [if_pos he]
        rw [if_neg (gus_not_success _ _)]
        by_cases hfb : (ONBOARDING_REQUIRED_FIELDS.filter
            (fun g => !truthy (pyGet (st.extracted_information
              ++ extract_user_information o.extractFails o.rawExtract) g))).isEmpty
            = true
        · rw [if_pos hfb]
        · rw [if_neg hfb]
      · rw [if_neg he]

/-- The databases the transcription-plus-extraction stage can leave
behind. -/
theorem turnStage2_db_cases (o : Oracle) (st0 : AState) (db : Db) :
    (turnStage2 o st0 db).2.1 = db ∨
    ∃ ev, (turnStage2 o st0 db).2.1
      = extractionDirectSave o db ev
          (extract_user_information o.extractFails o.rawExtract) := by
  simp only [turnStage2]
  rcases extraction_node_db_cases o (transcription_node o st0).1 db with h | h
  · exact Or.inl h
  · exact Or.inr ⟨_, h⟩

/-! ### C1: monotonic completion -/

/-- C1: a present (non-null, non-empty) value on the durable record survives
any turn that extracts no new value for its field, unchanged.  The only
write the program can perform is the extraction node's best-effort
`setattr`-and-save, which adds only extracted entries for declared fields;
the completion save and the route save always raise before `user.save()`
and leave the database untouched. -/
theorem C1_monotonic_completion (o : Oracle) (st0 : AState) (db : Db)
    (e f : String) (u : Dict) (v : Value)
    (hget : dbGet db e = some u)
    (hpresent : dget u f = some v)
    (hpres : isMissingDb v = false)
    (hpstr : v ≠ Value.str "")
    (hnoext : dget (extract_user_information o.extractFails o.rawExtract) f
      = Option.none) :
    ∃ u2, dbGet (runTurn o st0 db).db e = some u2 ∧ dget u2 f = some v := by
  have hstage : ∃ u2, dbGet (turnStage2 o st0 db).2.1 e = some u2 ∧
      dget u2 f = some v := by
    rcases turnStage2_db_cases o st0 db with h | ⟨ev, h⟩
    · rw [h]
      exact ⟨u, hget, hpresent⟩
    · rw [h]
      rcases extractionDirectSave_dbGet o ev
        (extract_user_information o.extractFails o.rawExtract) hget with h2 | h2
      · exact ⟨u, h2, hpresent⟩
      · refine ⟨_, h2, ?_⟩
        rw [applyExtractedToUser_dget_none hnoext]
        exact hpresent
  obtain ⟨u2, hu2, hu2f⟩ := hstage
  rcases runTurn_db_cases o st0 db with h | h
  · rw [h]
    exact ⟨u2, hu2, hu2f⟩
  · rw [h, complete_node_db]
    exact ⟨u2, hu2, hu2f⟩

/-- C1 instantiated: a turn that extracts only `age` (and durably writes it)
keeps the record's present `first_name` intact. -/
theorem C1_witness :
    ∃ u2, dbGet (runTurn oracleWriteAge completeSessionState
        [("john@example.com", userPartial)]).db "john@example.com"
      = some u2 ∧ dget u2 "first_name" = some (Value.str "John") :=
  C1_monotonic_completion oracleWriteAge completeSessionState
    [("john@example.com", userPartial)] "john@example.com" "first_name"
    userPartial (Value.str "John")
    (by decide) (by decide) (by decide) (by decide) (by decide)

/-! ### The turn reads the conversation map only pointwise -/

theorem alGet_none_of_not_mem_keys {α : Type} {d : List (String × α)} {k : String}
    (h : k ∉ d.map Prod.fst) : alGet d k = Option.none := by
  induction d with
  | nil => rfl
  | cons p rest ih =>
    have h1 : k ∉ rest.map Prod.fst := fun hm => h (List.mem_cons_of_mem _ hm)
    have h2 : p.1 ≠ k := fun he => h (he ▸ List.mem_cons_self _ _)
    simp only [alGet, ih h1]
    rw [if_neg h2]

/-- A key of the association list always has a lookup. -/
theorem alGet_isSome_of_mem_keys {α : Type} {d : List (String × α)} {k : String}
    (h : k ∈ d.map Prod.fst) : (alGet d k).isSome = true := by
  induction d with
  | nil => cases h
  | cons p rest ih =>
    rw [List.map_cons] at h
    show (match alGet rest k with
          | some v => some v
          | Option.none => if p.1 = k then some p.2 else Option.none).isSome = true
    cases hr : alGet rest k with
    | some v => rfl
    | none =>
      rcases List.mem_cons.mp h with h1 | h1
      · rw [if_pos h1.symm]
        rfl
      · have h2 := ih h1
        rw [hr] at h2
        cases h2

/-- Pointwise-equal dicts have the same `len`: a key is present exactly when
its lookup is. -/
theorem dictLen_congr {a b : Dict} (h : dictEquiv a b) : dictLen a = dictLen b := by
  unfold dictLen
  have hk : ∀ k, k ∈ a.map Prod.fst ↔ k ∈ b.map Prod.fst := by
    intro k
    constructor
    · intro hk
      by_contra hk2
      have h1 := alGet_isSome_of_mem_keys hk
      have h2 := alGet_none_of_not_mem_keys hk2
      rw [show alGet a k = dget a k from rfl, h k,
          show dget b k = alGet b k from rfl, h2] at h1
      cases h1
    · intro hk
      by_contra hk2
      have h1 := alGet_isSome_of_mem_keys hk
      have h2 := alGet_none_of_not_mem_keys hk2
      rw [show alGet b k = dget b k from rfl, ← h k,
          show dget a k = alGet a k from rfl, h2] at h1
      cases h1
  have hts : (a.map Prod.fst).toFinset = (b.map Prod.fst).toFinset := by
    apply Finset.ext
    intro k
    rw [List.mem_toFinset, List.mem_toFinset]
    exact hk k
  rw [hts]

/-- Updating two pointwise-equal maps with the same entries keeps them
pointwise equal. -/
theorem dget_append_congr {a b : Dict} (E : Dict) (h : dictEquiv a b) :
    dictEquiv (a ++ E) (b ++ E) := by
  intro k
  unfold dget
  rw [alGet_append, alGet_append]
  cases hE : alGet E k with
  | some v => rfl
  | none => exact h k

/-- `d.get(k)` agrees on pointwise-equal dicts. -/
theorem pyGet_congr {a b : Dict} (h : dictEquiv a b) (k : String) :
    pyGet a k = pyGet b k := by
  unfold pyGet
  rw [h k]

/-- The fallback missing-field computation agrees on pointwise-equal
maps. -/
theorem filter_truthy_congr {a b : Dict} (h : dictEquiv a b) (L : List String) :
    L.filter (fun f => !truthy (pyGet a f))
      = L.filter (fun f => !truthy (pyGet b f)) := by
  induction L with
  | nil => rfl
  | cons g rest ih =>
    rw [List.filter_cons, List.filter_cons, pyGet_congr h g, ih]

/-- The completion node's truthiness guard agrees on pointwise-equal
maps. -/
theorem all_truthy_congr {a b : Dict} (h : dictEquiv a b) (L : List String) :
    (L.all fun f => truthy (pyGet a f))
      = (L.all fun f => truthy (pyGet b f)) := by
  induction L with
  | nil => rfl
  | cons g rest ih =>
    rw [List.all_cons, List.all_cons, pyGet_congr h g, ih]

/-- The greeting depends only on the `first_name` entry. -/
theorem nameGreeting_congr {a b : Dict}
    (h : dget a "first_name" = dget b "first_name") :
    nameGreeting a = nameGreeting b := by
  unfold nameGreeting dgetD
  rw [h]

/-- The base question depends only on the `first_name` entry. -/
theorem base_question_congr (f : String) {a b : Dict}
    (h : dget a "first_name" = dget b "first_name") :
    base_question f a = base_question f b := by
  unfold base_question
  rw [nameGreeting_congr h]

/-- The contextual question agrees on two context dicts with the same
`first_name` entry and the same number of keys (the four-entry gate then
falls the same way). -/
theorem question_congr_len (r : Option String) (f : String) {a b : Dict}
    (hfn : dget a "first_name" = dget b "first_name")
    (hlen : dictLen a = dictLen b) :
    generate_contextual_onboarding_question r f a
      = generate_contextual_onboarding_question r f b := by
  simp only [generate_contextual_onboarding_question]
  rw [hlen, base_question_congr f hfn]

/-! ### Node-by-node pointwise congruence -/

/-- `generate_response_node` preserves pointwise agreement. -/
theorem generate_response_node_agree {s1 s2 : AState} (h : agreeExcept s1 s2) :
    agreeExcept (generate_response_node s1) (generate_response_node s2) := by
  obtain ⟨h1, h2, h3, h4, h5, h6⟩ := h
  unfold generate_response_node
  rw [h4, h3]
  by_cases hc : (s2.system_response.getD "") ≠ ""
  · rw [if_pos hc, if_pos hc]
    exact ⟨h1, h2, h3, h4, h5, h6⟩
  · rw [if_neg hc, if_neg hc]
    exact ⟨h1, h2, rfl, rfl, h5, h6⟩

/-- `end_interaction_node` preserves pointwise agreement. -/
theorem end_interaction_node_agree {s1 s2 : AState} (h : agreeExcept s1 s2) :
    agreeExcept (end_interaction_node s1) (end_interaction_node s2) := by
  obtain ⟨h1, h2, h3, h4, h5, h6⟩ := h
  exact ⟨h1, h2, h3, rfl, h5, h6⟩

/-- `transcription_node` preserves pointwise agreement and makes the same
external call. -/
theorem transcription_node_agree (o : Oracle) {s1 s2 : AState}
    (h : agreeExcept s1 s2) :
    agreeExcept (transcription_node o s1).1 (transcription_node o s2).1 ∧
    (transcription_node o s1).2 = (transcription_node o s2).2 := by
  obtain ⟨h1, h2, h3, h4, h5, h6⟩ := h
  unfold transcription_node
  rw [h1]
  cases hin : s2.user_input with
  | audio =>
    cases o.transcribeRes with
    | some t => exact ⟨⟨rfl, rfl, h3, h4, h5, h6⟩, rfl⟩
    | none => exact ⟨⟨rfl, h2, h3, rfl, rfl, h6⟩, rfl⟩
  | txt s => exact ⟨⟨rfl, rfl, h3, h4, h5, h6⟩, rfl⟩
  | noInput => exact ⟨⟨rfl, h2, h3, rfl, rfl, h6⟩, rfl⟩

/-- `information_extraction_node` preserves pointwise agreement, leaves the
same database, and makes the same external calls. -/
theorem extraction_node_agree (o : Oracle) (db : Db) {s1 s2 : AState}
    (h : agreeExcept s1 s2) :
    agreeExcept (information_extraction_node o s1 db).1
      (information_extraction_node o s2 db).1 ∧
    (information_extraction_node o s1 db).2.1
      = (information_extraction_node o s2 db).2.1 ∧
    (information_extraction_node o s1 db).2.2
      = (information_extraction_node o s2 db).2.2 := by
  obtain ⟨h1, h2, h3, h4, h5, h6⟩ := h
  have hCI : dictEquiv
      (s1.extracted_information ++ extract_user_information o.extractFails o.rawExtract)
      (s2.extracted_information ++ extract_user_information o.extractFails o.rawExtract) :=
    dget_append_congr _ h6
  have hev : pyGet (s1.extracted_information ++ extract_user_information o.extractFails o.rawExtract) "email"
      = pyGet (s2.extracted_information ++ extract_user_information o.extractFails o.rawExtract) "email" :=
    pyGet_congr hCI "email"
  simp only [information_extraction_node]
  rw [h2]
  cases ht : s2.transcribed_text with
  | none => exact ⟨⟨h1, rfl, h3, rfl, rfl, h6⟩, rfl, rfl⟩
  | some t =>
    dsimp only
    by_cases htne : t ≠ ""
    · rw [if_pos htne, if_pos htne]
      rw [hev]
      by_cases hem : truthy (pyGet (s2.extracted_information ++ extract_user_information o.extractFails o.rawExtract) "email")
          = true
      · rw [if_pos hem, if_pos hem]
        rw [if_neg (gus_not_success _ _), if_neg (gus_not_success _ _)]
        have hmiss : ONBOARDING_REQUIRED_FIELDS.filter
            (fun f => !truthy (pyGet (s1.extracted_information ++ extract_user_information o.extractFails o.rawExtract) f))
            = ONBOARDING_REQUIRED_FIELDS.filter
              (fun f => !truthy (pyGet (s2.extracted_information ++ extract_user_information o.extractFails o.rawExtract) f)) :=
          filter_truthy_congr hCI _
        rw [hmiss]
        by_cases hm : (ONBOARDING_REQUIRED_FIELDS.filter
            (fun f => !truthy
              (pyGet (s2.extracted_information ++ extract_user_information o.extractFails o.rawExtract) f))).isEmpty = true
        · rw [if_pos hm, if_pos hm]
          exact ⟨⟨h1, rfl, rfl, rfl, h5, hCI⟩, rfl, rfl⟩
        · rw [if_neg hm, if_neg hm]
          have hq : generate_contextual_onboarding_question o.restyleRes
              ((ONBOARDING_REQUIRED_FIELDS.filter
                (fun f => !truthy
                  (pyGet (s2.extracted_information ++ extract_user_information o.extractFails o.rawExtract) f))).headD "")
              (s1.extracted_information ++ extract_user_information o.extractFails o.rawExtract)
              = generate_contextual_onboarding_question o.restyleRes
                ((ONBOARDING_REQUIRED_FIELDS.filter
                  (fun f => !truthy
                    (pyGet (s2.extracted_information ++ extract_user_information o.extractFails o.rawExtract) f))).headD "")
                (s2.extracted_information ++ extract_user_information o.extractFails o.rawExtract) :=
            question_congr_len _ _ (hCI "first_name") (dictLen_congr hCI)
          rw [hq]
          exact ⟨⟨h1, rfl, rfl, rfl, h5, hCI⟩, rfl, rfl⟩
      · rw [if_neg hem, if_neg hem]
        exact ⟨⟨h1, rfl, rfl, rfl, h5, hCI⟩, rfl, rfl⟩
    · rw [if_neg htne, if_neg htne]
      exact ⟨⟨h1, rfl, h3, rfl, rfl, h6⟩, rfl, rfl⟩

/-- `onboarding_complete_node` preserves pointwise agreement and leaves the
same database. -/
theorem complete_node_agree (o : Oracle) (db : Db) {s1 s2 : AState}
    (h : agreeExcept s1 s2) :
    agreeExcept (onboarding_complete_node o s1 db).1
      (onboarding_complete_node o s2 db).1 ∧
    (onboarding_complete_node o s1 db).2
      = (onboarding_complete_node o s2 db).2 := by
  obtain ⟨h1, h2, h3, h4, h5, h6⟩ := h
  have hev : pyGet s1.extracted_information "email"
      = pyGet s2.extracted_information "email" := pyGet_congr h6 "email"
  simp only [onboarding_complete_node]
  rw [hev]
  by_cases hem : truthy (pyGet s2.extracted_information "email") = true
  · rw [if_pos hem, if_pos hem]
    rw [if_neg (gus_not_success _ _), if_neg (gus_not_success _ _)]
    have hall : (ONBOARDING_REQUIRED_FIELDS.all
        fun f => truthy (pyGet s1.extracted_information f))
        = (ONBOARDING_REQUIRED_FIELDS.all
          fun f => truthy (pyGet s2.extracted_information f)) :=
      all_truthy_congr h6 _
    rw [hall]
    by_cases ha : (ONBOARDING_REQUIRED_FIELDS.all
        fun f => truthy (pyGet s2.extracted_information f)) = true
    · rw [if_pos ha, if_pos ha]
      have hsave : save_user_to_graph_db db o.finalSaveErr
          s1.extracted_information
          = save_user_to_graph_db db o.finalSaveErr s2.extracted_information :=
        save_congr db o.finalSaveErr hev
      rw [hsave]
      by_cases hs : (save_user_to_graph_db db o.finalSaveErr
          s2.extracted_information).1.success = true
      · rw [if_pos hs, if_pos hs]
        exact ⟨⟨h1, h2, rfl, rfl, h5, h6⟩, rfl⟩
      · rw [if_neg hs, if_neg hs]
        exact ⟨⟨h1, h2, rfl, rfl, h5, h6⟩, rfl⟩
    · rw [if_neg ha, if_neg ha]
      exact ⟨⟨h1, h2, rfl, rfl, h5, h6⟩, rfl⟩
  · rw [if_neg hem, if_neg hem]
    exact ⟨⟨h1, h2, rfl, rfl, h5, h6⟩, rfl⟩

/-- Full shape of a turn in terms of the stage-2 state. -/
theorem runTurn_full (o : Oracle) (st0 : AState) (db : Db) :
    runTurn o st0 db =
      if needs_more_info (turnStage2 o st0 db).1 then
        ⟨generate_response_node (turnStage2 o st0 db).1,
         (turnStage2 o st0 db).2.1, (turnStage2 o st0 db).2.2⟩
      else if is_onboarded (onboarding_complete_node o (turnStage2 o st0 db).1
            (turnStage2 o st0 db).2.1).1 then
        ⟨end_interaction_node (onboarding_complete_node o (turnStage2 o st0 db).1
            (turnStage2 o st0 db).2.1).1,
         (onboarding_complete_node o (turnStage2 o st0 db).1
            (turnStage2 o st0 db).2.1).2,
         (turnStage2 o st0 db).2.2⟩
      else
        ⟨generate_response_node (onboarding_complete_node o (turnStage2 o st0 db).1
            (turnStage2 o st0 db).2.1).1,
         (onboarding_complete_node o (turnStage2 o st0 db).1
            (turnStage2 o st0 db).2.1).2,
         (turnStage2 o st0 db).2.2⟩ := rfl

/-- A full turn on two pointwise-agreeing states: same response, status,
error and database, pointwise-agreeing conversation maps. -/
theorem runTurn_agree (o : Oracle) (db : Db) {s1 s2 : AState}
    (h : agreeExcept s1 s2) :
    (runTurn o s1 db).state.system_response
      = (runTurn o s2 db).state.system_response ∧
    (runTurn o s1 db).state.onboarding_status
      = (runTurn o s2 db).state.onboarding_status ∧
    (runTurn o s1 db).state.error = (runTurn o s2 db).state.error ∧
    (runTurn o s1 db).db = (runTurn o s2 db).db ∧
    dictEquiv (runTurn o s1 db).state.extracted_information
      (runTurn o s2 db).state.extracted_information := by
  obtain ⟨hT, hTb⟩ := transcription_node_agree o h
  obtain ⟨hE, hEdb, hEb⟩ := extraction_node_agree o db hT
  rw [runTurn_full o s1 db, runTurn_full o s2 db]
  simp only [turnStage2]
  rw [hEdb]
  have hn : needs_more_info
      (information_extraction_node o (transcription_node o s1).1 db).1
      = needs_more_info
        (information_extraction_node o (transcription_node o s2).1 db).1 := by
    unfold needs_more_info
    rw [hE.2.2.1]
  by_cases hnm : needs_more_info
      (information_extraction_node o (transcription_node o s2).1 db).1 = true
  · have hnm1 : needs_more_info
        (information_extraction_node o (transcription_node o s1).1 db).1
        = true := by
      rw [hn]
      exact hnm
    rw [if_pos hnm1, if_pos hnm]
    obtain ⟨g1, g2, g3, g4, g5, g6⟩ := generate_response_node_agree hE
    exact ⟨g4, g3, g5, rfl, g6⟩
  · have hnm1 : ¬(needs_more_info
        (information_extraction_node o (transcription_node o s1).1 db).1
        = true) := by
      rw [hn]
      exact hnm
    rw [if_neg hnm1, if_neg hnm]
    obtain ⟨hC, hCdb⟩ := complete_node_agree o
      ((information_extraction_node o (transcription_node o s2).1 db).2.1) hE
    have ho : is_onboarded (onboarding_complete_node o
        (information_extraction_node o (transcription_node o s1).1 db).1
        ((information_extraction_node o (transcription_node o s2).1 db).2.1)).1
        = is_onboarded (onboarding_complete_node o
          (information_extraction_node o (transcription_node o s2).1 db).1
          ((information_extraction_node o (transcription_node o s2).1 db).2.1)).1 := by
      unfold is_onboarded
      rw [hC.2.2.1]
    by_cases hob : is_onboarded (onboarding_complete_node o
        (information_extraction_node o (transcription_node o s2).1 db).1
        ((information_extraction_node o (transcription_node o s2).1 db).2.1)).1
        = true
    · have hob1 : is_onboarded (onboarding_complete_node o
          (information_extraction_node o (transcription_node o s1).1 db).1
          ((information_extraction_node o (transcription_node o s2).1 db).2.1)).1
          = true := by
        rw [ho]
        exact hob
      rw [if_pos hob1, if_pos hob]
      obtain ⟨g1, g2, g3, g4, g5, g6⟩ := end_interaction_node_agree hC
      exact ⟨g4, g3, g5, hCdb, g6⟩
    · have hob1 : ¬(is_onboarded (onboarding_complete_node o
          (information_extraction_node o (transcription_node o s1).1 db).1
          ((information_extraction_node o (transcription_node o s2).1 db).2.1)).1
          = true) := by
        rw [ho]
        exact hob
      rw [if_neg hob1, if_neg hob]
      obtain ⟨g1, g2, g3, g4, g5, g6⟩ := generate_response_node_agree hC
      exact ⟨g4, g3, g5, hCdb, g6⟩

/-! ### C8 amended -/

/-- C8 amended: the turn reads the conversation map only pointwise, so
resuming with the route's fresh seed is turn-equivalent to the spec's
durable-field-seeded conversation exactly when the two seeds agree
pointwise — that is, when the durable record's present profile fields are
just the email and the two names the route copies.  With any further
present durable field the seeds differ and the turns diverge: see the
counterexample. -/
theorem C8_session_resumption_amended (o : Oracle) (u : Dict) (db : Db)
    (t : String)
    (hseed : dictEquiv (freshSessionState u t).extracted_information
      (specSeededState u t).extracted_information) :
    (runTurn o (freshSessionState u t) db).state.system_response
      = (runTurn o (specSeededState u t) db).state.system_response ∧
    (runTurn o (freshSessionState u t) db).state.onboarding_status
      = (runTurn o (specSeededState u t) db).state.onboarding_status ∧
    (runTurn o (freshSessionState u t) db).state.error
      = (runTurn o (specSeededState u t) db).state.error ∧
    (runTurn o (freshSessionState u t) db).db
      = (runTurn o (specSeededState u t) db).db ∧
    dictEquiv
      (runTurn o (freshSessionState u t) db).state.extracted_information
      (runTurn o (specSeededState u t) db).state.extracted_information :=
  runTurn_agree o db ⟨rfl, rfl, rfl, rfl, rfl, hseed⟩

/-! ### C8 counterexample -/

/-- C8, as stated, is false: the route's fresh session seeds only email and
the two names, not the durable record's other present fields, and the
turn's missing-field computation runs on the in-memory map (the
database-backed read always fails).  For a record that already carries the
age, the resumed fresh session asks for the age while the durable-seeded
conversation asks the dietary question. -/
theorem C8_counterexample :
    (runTurn oracleQuiet (freshSessionState userPartial "I like pasta")
        [("john@example.com", userPartial)]).state.system_response
      = some "Hi John, to provide you with the most suitable recommendations, could you tell me your age?" ∧
    (runTurn oracleQuiet (specSeededState userPartial "I like pasta")
        [("john@example.com", userPartial)]).state.system_response
      = some "John, I'd love to know about your dietary preferences! Are you vegetarian, vegan, gluten-free, or following any specific eating plan?" ∧
    (runTurn oracleQuiet (freshSessionState userPartial "I like pasta")
        [("john@example.com", userPartial)]).state.system_response
      ≠ (runTurn oracleQuiet (specSeededState userPartial "I like pasta")
          [("john@example.com", userPartial)]).state.system_response := by
  decide

/-- C8 amended, instantiated: for a record whose only present profile fields
are the identity seed, the two runs agree. -/
theorem C8_witness :
    (runTurn oracleQuiet (freshSessionState userBare "hi")
        [("bo@example.com", userBare)]).state.system_response
      = (runTurn oracleQuiet (specSeededState userBare "hi")
          [("bo@example.com", userBare)]).state.system_response ∧
    (runTurn oracleQuiet (freshSessionState userBare "hi")
        [("bo@example.com", userBare)]).state.onboarding_status
      = (runTurn oracleQuiet (specSeededState userBare "hi")
          [("bo@example.com", userBare)]).state.onboarding_status ∧
    (runTurn oracleQuiet (freshSessionState userBare "hi")
        [("bo@example.com", userBare)]).state.error
      = (runTurn oracleQuiet (specSeededState userBare "hi")
          [("bo@example.com", userBare)]).state.error ∧
    (runTurn oracleQuiet (freshSessionState userBare "hi")
        [("bo@example.com", userBare)]).db
      = (runTurn oracleQuiet (specSeededState userBare "hi")
          [("bo@example.com", userBare)]).db ∧
    dictEquiv
      (runTurn oracleQuiet (freshSessionState userBare "hi")
        [("bo@example.com", userBare)]).state.extracted_information
      (runTurn oracleQuiet (specSeededState userBare "hi")
        [("bo@example.com", userBare)]).state.extracted_information :=
  C8_session_resumption_amended oracleQuiet userBare
    [("bo@example.com", userBare)] "hi" (fun _ => rfl)
